import Mathlib

/-!
Verification of the shaderpark live shader-reload controller
(`MaterialAutoUpdate` in src/lib.rs) against its specification.

The controller is embedded shallowly:
- `Path` and `OsStr` model the observations the source makes of
  `std::path::Path` (file stem, extension, UTF-8 conversion; each
  `to_str` is `none` exactly when the underlying bytes are not UTF-8).
- The mpsc channel shared by the file watcher and `manual_update` is
  modelled as the FIFO `queue` field; `try_recv` takes its head.
- The external collaborators (filesystem read, shaderc compiler,
  klystron engine) are an `Env` of result-returning functions.
- `liveSrc` is ghost bookkeeping: it records the binary pair that was
  passed to `add_material` when the currently stored material was
  created.  `trace` in `PollResult` is ghost output recording the
  external calls a poll performed, used to state that filtered events
  trigger no read and no compile.
- A reachable Rust panic is modelled by the `Outcome.panicked` value.
-/

namespace Shaderpark

/-- An OS string as observed by the source: only its optional UTF-8
decoding matters (`OsStr::to_str` is `none` for non-UTF-8 bytes). -/
structure OsStr where
  to_str : Option String
deriving DecidableEq

/-- A filesystem path as observed by the source: `file_stem`,
`extension` (both may be absent or non-UTF-8) and the whole path's
UTF-8 decoding `to_str`. -/
structure Path where
  file_stem : Option OsStr
  extension : Option OsStr
  to_str : Option String
deriving DecidableEq

/-- The debounced filesystem events of the notify crate. -/
inductive DebouncedEvent where
  | noticeWrite : Path → DebouncedEvent
  | noticeRemove : Path → DebouncedEvent
  | create : Path → DebouncedEvent
  | write : Path → DebouncedEvent
  | chmod : Path → DebouncedEvent
  | remove : Path → DebouncedEvent
  | rename : Path → Path → DebouncedEvent
  | rescan : DebouncedEvent
deriving DecidableEq

/-- The two shader stages the source maps file extensions to. -/
inductive ShaderKind where
  | Vertex : ShaderKind
  | Fragment : ShaderKind
deriving DecidableEq

/-- Structured form of the anyhow error chains `update` can return:
a file read error with its path context, a shader compile error, or an
engine error propagated from remove_material / add_material. -/
inductive Error where
  | fileError : Path → String → Error
  | compileError : String → Error
  | engineError : String → Error
deriving DecidableEq

/-- The observable result of one poll: a normal `Result` value
(`ok` / `err`), or a panic (reachable at the to_str unwrap). -/
inductive Outcome where
  | ok : Option String → Outcome
  | err : Error → Outcome
  | panicked : Outcome
deriving DecidableEq

/-- True exactly on `Outcome.ok`. -/
def Outcome.is_ok : Outcome → Bool
  | Outcome.ok _ => true
  | _ => false

/-- True exactly on an error propagated from the rendering engine
(remove_material or add_material failing). -/
def Outcome.engine_failure : Outcome → Bool
  | Outcome.err (Error.engineError _) => true
  | _ => false

/-- Ghost record of one external call made during a poll. -/
inductive TraceEv where
  | read : Path → TraceEv
  | compile : String → ShaderKind → String → TraceEv
  | removeMat : Nat → TraceEv
  | addMat : List Nat → List Nat → TraceEv
deriving DecidableEq

/-- True exactly on a compiler invocation. -/
def TraceEv.is_compile : TraceEv → Bool
  | TraceEv.compile _ _ _ => true
  | _ => false

/-- Number of compiler invocations in a ghost trace. -/
def count_compiles (tr : List TraceEv) : Nat :=
  (tr.filter TraceEv.is_compile).length

/-- The state of `MaterialAutoUpdate`.  `queue` models the mpsc channel
between the watcher thread / `manual_update` and `update`; `material`
is the klystron `Material` id; `vert` and `frag` are the stored SPIR-V
binaries; `prefixFilter` is the source's optional `prefix` field.
`liveSrc` is ghost: the binary pair the stored material was created
from (the arguments of the `add_material` call that produced it). -/
structure MaterialAutoUpdate where
  queue : List DebouncedEvent
  material : Nat
  vert : List Nat
  frag : List Nat
  prefixFilter : Option String
  liveSrc : List Nat × List Nat
deriving DecidableEq

/-- The external collaborators: filesystem read, shaderc compile
(source text, stage, diagnostic label), and the engine's material
destroy / create operations. -/
structure Env where
  readFile : Path → Except String String
  compile : String → ShaderKind → String → Except String (List Nat)
  removeMaterial : Nat → Except String Unit
  addMaterial : List Nat → List Nat → Except String Nat

/-- Result of one `update` call: the returned value, the post state,
and the ghost trace of external calls performed. -/
structure PollResult where
  outcome : Outcome
  state : MaterialAutoUpdate
  trace : List TraceEv
deriving DecidableEq

/-- The source's prefix test on one path:
path.file_stem().and_then(to_str).map(starts_with).unwrap_or(false). -/
def stem_starts_with (path : Path) (p : String) : Bool :=
  (((path.file_stem.bind fun s => s.to_str).map fun s => s.startsWith p)).getD false

/-- The prefix-filter stage: with no configured prefix every path
passes; with one, the file stem must start with it. -/
def passes_prefix_filter : Option String → Path → Bool
  | some p, path => stem_starts_with path p
  | none, _ => true

/-- The extension-to-stage map of the source's match:
vert to Vertex, frag to Fragment, anything else unrecognized. -/
def kind_of_ext : Option String → Option ShaderKind
  | some "vert" => some ShaderKind.Vertex
  | some "frag" => some ShaderKind.Fragment
  | _ => none

/-- Debug-style name of a stage, as in the success message. -/
def kind_repr : ShaderKind → String
  | ShaderKind.Vertex => "Vertex"
  | ShaderKind.Fragment => "Fragment"

/-- Display form of a path used in the success message. -/
def path_repr (p : Path) : String :=
  p.to_str.getD ""

/-- The single-stage binary update of update_shader: `if kind ==
ShaderKind::Vertex then self.vert = spv else self.frag = spv`. -/
def apply_stage (st : MaterialAutoUpdate) (kind : ShaderKind) (spv : List Nat) :
    MaterialAutoUpdate :=
  if kind = ShaderKind.Vertex then { st with vert := spv } else { st with frag := spv }

/-- MaterialAutoUpdate::update_shader.  Mirrors the source line by
line: prefix filter, extension filter, file read, the to_str unwrap
(a non-UTF-8 path panics here), compile, single-stage binary update,
remove_material, add_material. -/
def update_shader (env : Env) (st : MaterialAutoUpdate) (path : Path) : PollResult :=
  if passes_prefix_filter st.prefixFilter path = false then
    ⟨Outcome.ok none, st, []⟩
  else
    match kind_of_ext (path.extension.bind fun v => v.to_str) with
    | none => ⟨Outcome.ok none, st, []⟩
    | some kind =>
      match env.readFile path with
      | Except.error e => ⟨Outcome.err (Error.fileError path e), st, [TraceEv.read path]⟩
      | Except.ok source =>
        match path.to_str with
        | none => ⟨Outcome.panicked, st, [TraceEv.read path]⟩
        | some label =>
          match env.compile source kind label with
          | Except.error e =>
            ⟨Outcome.err (Error.compileError e), st,
             [TraceEv.read path, TraceEv.compile source kind label]⟩
          | Except.ok spv =>
            match env.removeMaterial (apply_stage st kind spv).material with
            | Except.error e =>
              ⟨Outcome.err (Error.engineError e), apply_stage st kind spv,
               [TraceEv.read path, TraceEv.compile source kind label,
                TraceEv.removeMat (apply_stage st kind spv).material]⟩
            | Except.ok _ =>
              match env.addMaterial (apply_stage st kind spv).vert (apply_stage st kind spv).frag with
              | Except.error e =>
                ⟨Outcome.err (Error.engineError e), apply_stage st kind spv,
                 [TraceEv.read path, TraceEv.compile source kind label,
                  TraceEv.removeMat (apply_stage st kind spv).material,
                  TraceEv.addMat (apply_stage st kind spv).vert (apply_stage st kind spv).frag]⟩
              | Except.ok m =>
                ⟨Outcome.ok (some ("Successfully loaded " ++ kind_repr kind
                    ++ " shader: " ++ path_repr path)),
                 { (apply_stage st kind spv) with
                   material := m,
                   liveSrc := ((apply_stage st kind spv).vert, (apply_stage st kind spv).frag) },
                 [TraceEv.read path, TraceEv.compile source kind label,
                  TraceEv.removeMat (apply_stage st kind spv).material,
                  TraceEv.addMat (apply_stage st kind spv).vert (apply_stage st kind spv).frag]⟩

/-- MaterialAutoUpdate::update (poll).  try_recv drains at most one
event; Create and Write dispatch to update_shader, every other drained
event (and an empty channel) yields Ok(None). -/
def update (env : Env) (st : MaterialAutoUpdate) : PollResult :=
  match st.queue with
  | [] => ⟨Outcome.ok none, st, []⟩
  | e :: rest =>
    match e with
    | DebouncedEvent.create p => update_shader env { st with queue := rest } p
    | DebouncedEvent.write p => update_shader env { st with queue := rest } p
    | _ => ⟨Outcome.ok none, { st with queue := rest }, []⟩

/-- MaterialAutoUpdate::manual_update: sends a synthetic Write event
on the same channel the watcher uses; never compiles, never fails
(the receiver is owned by the same struct, so send cannot error). -/
def manual_update (st : MaterialAutoUpdate) (path : Path) :
    Except String Unit × MaterialAutoUpdate :=
  (Except.ok (), { st with queue := st.queue ++ [DebouncedEvent.write path] })

/-- Delivery of one naturally detected event by the Change Event
Source: it enqueues on the same channel. -/
def deliver_event (st : MaterialAutoUpdate) (e : DebouncedEvent) : MaterialAutoUpdate :=
  { st with queue := st.queue ++ [e] }

/-- MaterialAutoUpdate::new, up to the external watcher and compiler
construction: stores the default binaries and creates the initial
material from exactly that pair. -/
def new (env : Env) (unlitVert unlitFrag : List Nat) (pf : Option String) :
    Except String MaterialAutoUpdate :=
  match env.addMaterial unlitVert unlitFrag with
  | Except.error e => Except.error e
  | Except.ok m =>
    Except.ok
      { queue := [], material := m, vert := unlitVert, frag := unlitFrag,
        prefixFilter := pf, liveSrc := (unlitVert, unlitFrag) }

/-- The state invariant claimed by the spec: the stored binary pair is
the pair the live material was created from. -/
def binaries_consistent (st : MaterialAutoUpdate) : Prop :=
  (st.vert, st.frag) = st.liveSrc

/-- Iterated polling (state only): k successive update calls. -/
def pollN (env : Env) : Nat → MaterialAutoUpdate → MaterialAutoUpdate
  | 0, st => st
  | k + 1, st => pollN env k (update env st).state

/-- True exactly on the two event kinds update dispatches on. -/
def is_create_or_write : DebouncedEvent → Bool
  | DebouncedEvent.create _ => true
  | DebouncedEvent.write _ => true
  | _ => false

/-! Concrete fixtures used by counterexamples and witnesses. -/

/-- A UTF-8 vertex-shader path, stem "shader". -/
def path_vert : Path :=
  { file_stem := some { to_str := some "shader" },
    extension := some { to_str := some "vert" },
    to_str := some "shaders/shader.vert" }

/-- A UTF-8 fragment-shader path, stem "shader". -/
def path_frag : Path :=
  { file_stem := some { to_str := some "shader" },
    extension := some { to_str := some "frag" },
    to_str := some "shaders/shader.frag" }

/-- A path with an unrecognized extension. -/
def path_txt : Path :=
  { file_stem := some { to_str := some "shader" },
    extension := some { to_str := some "txt" },
    to_str := some "shaders/shader.txt" }

/-- A vertex-shader path whose full byte string is not valid UTF-8
(so to_str is none) though stem and extension decode fine. -/
def path_no_utf8 : Path :=
  { file_stem := some { to_str := some "shader" },
    extension := some { to_str := some "vert" },
    to_str := none }

/-- A vertex-shader path whose stem is "other". -/
def path_other_stem : Path :=
  { file_stem := some { to_str := some "other" },
    extension := some { to_str := some "vert" },
    to_str := some "shaders/other.vert" }

/-- A consistent controller state with an empty queue. -/
def base_state : MaterialAutoUpdate :=
  { queue := [], material := 1, vert := [1], frag := [2],
    prefixFilter := none, liveSrc := ([1], [2]) }

/-- base_state with a single queued event. -/
def st_one (e : DebouncedEvent) : MaterialAutoUpdate :=
  { base_state with queue := [e] }

/-- An environment in which every external call succeeds. -/
def env_all_ok : Env :=
  { readFile := fun _ => Except.ok "src",
    compile := fun _ _ _ => Except.ok [9],
    removeMaterial := fun _ => Except.ok (),
    addMaterial := fun _ _ => Except.ok 7 }

/-- env_all_ok except every file read fails. -/
def env_read_fails : Env :=
  { env_all_ok with readFile := fun _ => Except.error "no such file" }

/-- env_all_ok except every compile fails. -/
def env_compile_fails : Env :=
  { env_all_ok with compile := fun _ _ _ => Except.error "bad shader" }

/-- env_all_ok except material teardown fails. -/
def env_remove_fails : Env :=
  { env_all_ok with removeMaterial := fun _ => Except.error "gpu teardown error" }

/-- env_all_ok except material creation fails. -/
def env_add_fails : Env :=
  { env_all_ok with addMaterial := fun _ _ => Except.error "gpu create error" }

/-! Helper lemmas shared by the claim proofs. -/

/-- apply_stage never changes the stored material id. -/
theorem apply_stage_material (st : MaterialAutoUpdate) (k : ShaderKind) (spv : List Nat) :
    (apply_stage st k spv).material = st.material := by
  unfold apply_stage; split <;> rfl

/-- apply_stage never changes the queue. -/
theorem apply_stage_queue (st : MaterialAutoUpdate) (k : ShaderKind) (spv : List Nat) :
    (apply_stage st k spv).queue = st.queue := by
  unfold apply_stage; split <;> rfl

/-- The stored vertex binary after apply_stage. -/
theorem apply_stage_vert (st : MaterialAutoUpdate) (k : ShaderKind) (spv : List Nat) :
    (apply_stage st k spv).vert = if k = ShaderKind.Vertex then spv else st.vert := by
  unfold apply_stage
  split <;> rename_i h <;> simp [h]

/-- The stored fragment binary after apply_stage. -/
theorem apply_stage_frag (st : MaterialAutoUpdate) (k : ShaderKind) (spv : List Nat) :
    (apply_stage st k spv).frag = if k = ShaderKind.Vertex then st.frag else spv := by
  unfold apply_stage
  split <;> rename_i h <;> simp [h]

/-- update_shader never changes the queue. -/
theorem update_shader_queue (env : Env) (st : MaterialAutoUpdate) (path : Path) :
    (update_shader env st path).state.queue = st.queue := by
  unfold update_shader
  split
  · rfl
  · split
    · rfl
    · split
      · rfl
      · split
        · rfl
        · split
          · rfl
          · split
            · exact apply_stage_queue ..
            · split
              · exact apply_stage_queue ..
              · exact apply_stage_queue ..

/-! Claim theorems. -/

/-- Claim C10: poll is not total as an error-returning function.
There is an input — a drained Written event whose path passes the
prefix and extension filters, whose file reads successfully and whose
source the compiler accepts — on which update_shader panics at the
to_str unwrap (the path is not valid UTF-8) instead of returning any
Ok or Err value. -/
theorem c10_non_utf8_path_panics :
    passes_prefix_filter (st_one (DebouncedEvent.write path_no_utf8)).prefixFilter
      path_no_utf8 = true ∧
    kind_of_ext (path_no_utf8.extension.bind fun v => v.to_str) = some ShaderKind.Vertex ∧
    env_all_ok.readFile path_no_utf8 = Except.ok "src" ∧
    env_all_ok.compile "src" ShaderKind.Vertex "anyLabel" = Except.ok [9] ∧
    path_no_utf8.to_str = none ∧
    update env_all_ok (st_one (DebouncedEvent.write path_no_utf8)) =
      ⟨Outcome.panicked, base_state, [TraceEv.read path_no_utf8]⟩ :=
  ⟨rfl, rfl, rfl, rfl, rfl, rfl⟩

/-- Counterexample to claim C1 as stated: on a drained Written event
for a path passing both filters whose file read fails, poll returns an
Err value, not Ok(Some(error message)). -/
theorem c1_counterexample :
    update env_read_fails (st_one (DebouncedEvent.write path_vert)) =
      ⟨Outcome.err (Error.fileError path_vert "no such file"), base_state,
       [TraceEv.read path_vert]⟩ ∧
    Outcome.is_ok
      (update env_read_fails (st_one (DebouncedEvent.write path_vert))).outcome = false :=
  ⟨rfl, rfl⟩

/-- Claim C1 (amended): for every drained Created or Written event
whose path passes the prefix and extension filters, if reading the
file or compiling its source fails, poll returns Err(details) — an
error value handed to the caller, not a panic — and the stored vertex
binary, fragment binary and live material id are all unchanged from
their pre-call values (only the queue head is consumed). -/
theorem c1_read_or_compile_failure_err_state_unchanged
    (env : Env) (st : MaterialAutoUpdate) (path : Path) (rest : List DebouncedEvent)
    (k : ShaderKind)
    (hq : st.queue = DebouncedEvent.write path :: rest ∨
      st.queue = DebouncedEvent.create path :: rest)
    (hp : passes_prefix_filter st.prefixFilter path = true)
    (hk : kind_of_ext (path.extension.bind fun v => v.to_str) = some k)
    (hfail : (∃ e, env.readFile path = Except.error e) ∨
      (∃ src l e, env.readFile path = Except.ok src ∧ path.to_str = some l ∧
        env.compile src k l = Except.error e)) :
    (∃ er, (update env st).outcome = Outcome.err er) ∧
    (update env st).state = { st with queue := rest } := by
  have hu : update env st = update_shader env { st with queue := rest } path := by
    rcases hq with hq | hq <;> simp only [update, hq]
  rw [hu]
  rcases hfail with ⟨e, he⟩ | ⟨src, l, e, hr, hl, hc⟩
  · refine ⟨⟨Error.fileError path e, ?_⟩, ?_⟩ <;>
      simp [update_shader, hp, hk, he]
  · refine ⟨⟨Error.compileError e, ?_⟩, ?_⟩ <;>
      simp [update_shader, hp, hk, hr, hl, hc]

/-- Witness for C1: the amended theorem applied at a concrete failing
read. -/
theorem c1_witness :
    (update env_read_fails (st_one (DebouncedEvent.write path_vert))).state =
      { (st_one (DebouncedEvent.write path_vert)) with queue := [] } :=
  (c1_read_or_compile_failure_err_state_unchanged env_read_fails
    (st_one (DebouncedEvent.write path_vert)) path_vert [] ShaderKind.Vertex
    (Or.inl rfl) rfl rfl (Or.inl ⟨"no such file", rfl⟩)).2

/-- Counterexample to claim C4 as stated: with a teardown failure
injected, after the failed poll the stored material id still equals
the pre-call id — the controller does retain it. -/
theorem c4_counterexample :
    (update env_remove_fails (st_one (DebouncedEvent.write path_vert))).outcome =
      Outcome.err (Error.engineError "gpu teardown error") ∧
    (update env_remove_fails (st_one (DebouncedEvent.write path_vert))).state.material =
      (st_one (DebouncedEvent.write path_vert)).material :=
  ⟨rfl, rfl⟩

/-- Claim C4 (amended): in compile-and-swap, if destroying the current
live material fails, poll returns that engine error and the
controller's stored material reference still equals the pre-call
material id — the old id is retained, not cleared. -/
theorem c4_teardown_failure_retains_old_material
    (env : Env) (st : MaterialAutoUpdate) (path : Path) (rest : List DebouncedEvent)
    (k : ShaderKind) (src l : String) (b : List Nat) (e : String)
    (hq : st.queue = DebouncedEvent.write path :: rest)
    (hp : passes_prefix_filter st.prefixFilter path = true)
    (hk : kind_of_ext (path.extension.bind fun v => v.to_str) = some k)
    (hr : env.readFile path = Except.ok src)
    (hl : path.to_str = some l)
    (hc : env.compile src k l = Except.ok b)
    (hrm : env.removeMaterial st.material = Except.error e) :
    (update env st).outcome = Outcome.err (Error.engineError e) ∧
    (update env st).state.material = st.material := by
  have hu : update env st = update_shader env { st with queue := rest } path := by
    simp only [update, hq]
  rw [hu]
  constructor <;>
    simp [update_shader, hp, hk, hr, hl, hc, apply_stage_material, hrm]

/-- Witness for C4: the amended theorem applied at a concrete teardown
failure. -/
theorem c4_witness :
    (update env_remove_fails (st_one (DebouncedEvent.write path_vert))).state.material =
      (st_one (DebouncedEvent.write path_vert)).material :=
  (c4_teardown_failure_retains_old_material env_remove_fails
    (st_one (DebouncedEvent.write path_vert)) path_vert [] ShaderKind.Vertex
    "src" "shaders/shader.vert" [9] "gpu teardown error"
    rfl rfl rfl rfl rfl rfl rfl).2

/-- Either update_shader leaves the stored pair consistent with the
live material, or its outcome is an engine (teardown/creation)
failure. -/
theorem update_shader_consistent_or_engine_failure
    (env : Env) (st : MaterialAutoUpdate) (path : Path)
    (h1 : binaries_consistent st) :
    binaries_consistent (update_shader env st path).state ∨
      Outcome.engine_failure (update_shader env st path).outcome = true := by
  unfold update_shader
  split
  · exact Or.inl h1
  · split
    · exact Or.inl h1
    · split
      · exact Or.inl h1
      · split
        · exact Or.inl h1
        · split
          · exact Or.inl h1
          · split
            · exact Or.inr rfl
            · split
              · exact Or.inr rfl
              · exact Or.inl rfl

/-- Either update (poll) preserves consistency of the stored pair with
the live material, or it returns an engine failure. -/
theorem update_consistent_or_engine_failure
    (env : Env) (st : MaterialAutoUpdate)
    (h1 : binaries_consistent st) :
    binaries_consistent (update env st).state ∨
      Outcome.engine_failure (update env st).outcome = true := by
  unfold update
  split
  · exact Or.inl h1
  · split
    · exact update_shader_consistent_or_engine_failure env _ _ h1
    · exact update_shader_consistent_or_engine_failure env _ _ h1
    · exact Or.inl h1

/-- Counterexample to claim C2 as stated: with a teardown failure
injected after a successful compile, the error return of poll leaves
the stored vertex binary already replaced while the live material (and
the pair it was created from) is the old one — stored binaries and
live material disagree at an observable point. -/
theorem c2_counterexample :
    binaries_consistent (st_one (DebouncedEvent.write path_vert)) ∧
    (update env_remove_fails (st_one (DebouncedEvent.write path_vert))).state.vert = [9] ∧
    (update env_remove_fails (st_one (DebouncedEvent.write path_vert))).state.material = 1 ∧
    (update env_remove_fails (st_one (DebouncedEvent.write path_vert))).state.liveSrc =
      ([1], [2]) ∧
    ((update env_remove_fails (st_one (DebouncedEvent.write path_vert))).state.vert,
      (update env_remove_fails (st_one (DebouncedEvent.write path_vert))).state.frag) ≠
      (update env_remove_fails (st_one (DebouncedEvent.write path_vert))).state.liveSrc := by
  refine ⟨rfl, rfl, rfl, rfl, ?_⟩
  decide

/-- Either update_shader leaves the stored pair consistent with the
live material, or it does not report a successful reload (the success
message is returned only by the swap branch, which also resets
liveSrc). -/
theorem update_shader_consistent_or_not_ok_some
    (env : Env) (st : MaterialAutoUpdate) (path : Path) :
    binaries_consistent (update_shader env st path).state ∨
      ∀ msg, (update_shader env st path).outcome ≠ Outcome.ok (some msg) := by
  unfold update_shader
  split
  · exact Or.inr fun msg h => by simp at h
  · split
    · exact Or.inr fun msg h => by simp at h
    · split
      · exact Or.inr fun msg h => by simp at h
      · split
        · exact Or.inr fun msg h => by simp at h
        · split
          · exact Or.inr fun msg h => by simp at h
          · split
            · exact Or.inr fun msg h => by simp at h
            · split
              · exact Or.inr fun msg h => by simp at h
              · exact Or.inl rfl

/-- Either update (poll) leaves the stored pair consistent with the
live material, or it does not report a successful reload. -/
theorem update_consistent_or_not_ok_some
    (env : Env) (st : MaterialAutoUpdate) :
    binaries_consistent (update env st).state ∨
      ∀ msg, (update env st).outcome ≠ Outcome.ok (some msg) := by
  unfold update
  split
  · exact Or.inr fun msg h => by simp at h
  · split
    · exact update_shader_consistent_or_not_ok_some env _ _
    · exact update_shader_consistent_or_not_ok_some env _ _
    · exact Or.inr fun msg h => by simp at h

/-- Claim C2 (amended): the consistency of the stored binary pair with
the pair the live material was created from is an inductive invariant
of the engine-failure-free runs: it holds at construction; from a
consistent state any poll whose return is not a material
teardown/creation error preserves it; and any poll that returns a
successful-reload message re-establishes it from any state.  A
mid-swap engine failure can break it (stored binaries updated, live
material not), and after such a failure the two may stay inconsistent
at later observable points until a successful swap. -/
theorem c2_binaries_consistent_invariant :
    (∀ (env : Env) (uv uf : List Nat) (pf : Option String) (st0 : MaterialAutoUpdate),
      new env uv uf pf = Except.ok st0 → binaries_consistent st0) ∧
    (∀ (env : Env) (st : MaterialAutoUpdate),
      binaries_consistent st →
      Outcome.engine_failure (update env st).outcome = false →
      binaries_consistent (update env st).state) ∧
    (∀ (env : Env) (st : MaterialAutoUpdate) (msg : String),
      (update env st).outcome = Outcome.ok (some msg) →
      binaries_consistent (update env st).state) := by
  refine ⟨?_, ?_, ?_⟩
  · intro env uv uf pf st0 h
    unfold new at h
    cases ha : env.addMaterial uv uf with
    | error e => rw [ha] at h; cases h
    | ok m => rw [ha] at h; cases h; rfl
  · intro env st hinv hne
    rcases update_consistent_or_engine_failure env st hinv with h | h
    · exact h
    · rw [h] at hne
      exact absurd hne (by simp)
  · intro env st msg hok
    rcases update_consistent_or_not_ok_some env st with h | h
    · exact h
    · exact absurd hok (h msg)

/-- Witness for C2: the invariant at a concrete construction, and its
preservation across a concrete successful reload. -/
theorem c2_witness :
    binaries_consistent
      { queue := [], material := 7, vert := [1], frag := [2],
        prefixFilter := none, liveSrc := ([1], [2]) } ∧
    binaries_consistent
      (update env_all_ok (st_one (DebouncedEvent.write path_vert))).state :=
  ⟨c2_binaries_consistent_invariant.1 env_all_ok [1] [2] none
    { queue := [], material := 7, vert := [1], frag := [2],
      prefixFilter := none, liveSrc := ([1], [2]) } rfl,
   c2_binaries_consistent_invariant.2.1 env_all_ok
    (st_one (DebouncedEvent.write path_vert)) rfl rfl⟩

/-- Claim C3: for a path passing the filters whose source compiles,
one poll replaces only the binary of the stage resolved from the
extension, carries the other stage's binary over bit-identically, and
creates the new live material from the full pair (fresh stage,
carried-over stage); Vertex and Fragment are symmetric. -/
theorem c3_single_stage_update
    (env : Env) (st : MaterialAutoUpdate) (path : Path) (rest : List DebouncedEvent)
    (k : ShaderKind) (src l : String) (b : List Nat) (m : Nat)
    (hq : st.queue = DebouncedEvent.write path :: rest)
    (hp : passes_prefix_filter st.prefixFilter path = true)
    (hk : kind_of_ext (path.extension.bind fun v => v.to_str) = some k)
    (hr : env.readFile path = Except.ok src)
    (hl : path.to_str = some l)
    (hc : env.compile src k l = Except.ok b)
    (hrm : env.removeMaterial st.material = Except.ok ())
    (ham : env.addMaterial (if k = ShaderKind.Vertex then b else st.vert)
      (if k = ShaderKind.Vertex then st.frag else b) = Except.ok m) :
    (k = ShaderKind.Vertex →
      (update env st).state.vert = b ∧ (update env st).state.frag = st.frag) ∧
    (k = ShaderKind.Fragment →
      (update env st).state.frag = b ∧ (update env st).state.vert = st.vert) ∧
    (update env st).state.material = m ∧
    (update env st).state.liveSrc =
      (if k = ShaderKind.Vertex then b else st.vert,
       if k = ShaderKind.Vertex then st.frag else b) ∧
    Outcome.is_ok (update env st).outcome = true := by
  have hu : update env st = update_shader env { st with queue := rest } path := by
    simp only [update, hq]
  rw [hu]
  cases k with
  | Vertex =>
    have ham2 : env.addMaterial b st.frag = Except.ok m := by simpa using ham
    refine ⟨fun _ => ?_, fun h => absurd h (by decide), ?_, ?_, ?_⟩ <;>
      simp [update_shader, hp, hk, hr, hl, hc, hrm, ham2, Outcome.is_ok,
        apply_stage_material, apply_stage_vert, apply_stage_frag]
  | Fragment =>
    have ham2 : env.addMaterial st.vert b = Except.ok m := by simpa using ham
    refine ⟨fun h => absurd h (by decide), fun _ => ?_, ?_, ?_, ?_⟩ <;>
      simp [update_shader, hp, hk, hr, hl, hc, hrm, ham2, Outcome.is_ok,
        apply_stage_material, apply_stage_vert, apply_stage_frag]

/-- Witness for C3: a concrete successful vertex reload. -/
theorem c3_witness :
    (update env_all_ok (st_one (DebouncedEvent.write path_vert))).state.vert = [9] ∧
    (update env_all_ok (st_one (DebouncedEvent.write path_vert))).state.frag =
      (st_one (DebouncedEvent.write path_vert)).frag ∧
    (update env_all_ok (st_one (DebouncedEvent.write path_vert))).state.material = 7 :=
  have h := c3_single_stage_update env_all_ok (st_one (DebouncedEvent.write path_vert))
    path_vert [] ShaderKind.Vertex "src" "shaders/shader.vert" [9] 7
    rfl rfl rfl rfl rfl rfl rfl rfl
  ⟨(h.1 rfl).1, (h.1 rfl).2, h.2.2.1⟩

/-- Claim C5: trigger followed by one poll behaves exactly like one
poll draining a naturally delivered Written event for the same path:
the same PollResult (value, post-state and external calls), and
trigger itself only enqueues — it never fails, performs no external
call and changes no field but the queue. -/
theorem c5_trigger_then_poll_equals_natural_event
    (env : Env) (st : MaterialAutoUpdate) (path : Path) :
    update env (manual_update st path).2 =
      update env (deliver_event st (DebouncedEvent.write path)) ∧
    (manual_update st path).2 =
      { st with queue := st.queue ++ [DebouncedEvent.write path] } ∧
    (manual_update st path).1 = Except.ok () ∧
    (manual_update st path).2.vert = st.vert ∧
    (manual_update st path).2.frag = st.frag ∧
    (manual_update st path).2.material = st.material :=
  ⟨rfl, rfl, rfl, rfl, rfl, rfl⟩

/-- One poll consumes exactly the queue head. -/
theorem update_queue_tail (env : Env) (st : MaterialAutoUpdate) :
    (update env st).state.queue = st.queue.tail := by
  rcases hq : st.queue with _ | ⟨e, rest⟩
  · simp [update, hq]
  · cases e <;> simp [update, hq, update_shader_queue]

/-- update_shader performs at most one compile. -/
theorem update_shader_compiles_le_one (env : Env) (st : MaterialAutoUpdate) (path : Path) :
    count_compiles (update_shader env st path).trace ≤ 1 := by
  unfold update_shader
  split
  · simp [count_compiles]
  · split
    · simp [count_compiles]
    · split
      · simp [count_compiles, TraceEv.is_compile]
      · split
        · simp [count_compiles, TraceEv.is_compile]
        · split
          · simp [count_compiles, TraceEv.is_compile]
          · split
            · simp [count_compiles, TraceEv.is_compile]
            · split
              · simp [count_compiles, TraceEv.is_compile]
              · simp [count_compiles, TraceEv.is_compile]

/-- One poll performs at most one compile. -/
theorem update_compiles_le_one (env : Env) (st : MaterialAutoUpdate) :
    count_compiles (update env st).trace ≤ 1 := by
  rcases hq : st.queue with _ | ⟨e, rest⟩
  · simp [update, hq, count_compiles]
  · cases e <;> simp [update, hq, count_compiles] <;>
      exact update_shader_compiles_le_one ..

/-- After k polls the queue is the original queue without its first k
events. -/
theorem pollN_queue (env : Env) : ∀ (k : Nat) (st : MaterialAutoUpdate),
    (pollN env k st).queue = st.queue.drop k := by
  intro k
  induction k with
  | zero => intro st; simp [pollN]
  | succ n ih =>
    intro st
    rw [pollN, ih, update_queue_tail]
    cases st.queue <;> simp

/-- Claim C6: each poll call drains at most one pending event (exactly
the queue head) and performs at most one compile, however many events
are queued; n queued events are consumed front-first over n polls, and
a queue of 3 events is empty after exactly 3 polls (not after 2). -/
theorem c6_one_event_one_compile_per_poll
    (env : Env) (st : MaterialAutoUpdate) (k : Nat) :
    (update env st).state.queue = st.queue.tail ∧
    count_compiles (update env st).trace ≤ 1 ∧
    (pollN env k st).queue = st.queue.drop k ∧
    (st.queue.length = 3 →
      (pollN env 3 st).queue = [] ∧ (pollN env 2 st).queue ≠ []) := by
  refine ⟨update_queue_tail env st, update_compiles_le_one env st,
    pollN_queue env k st, fun h3 => ⟨?_, ?_⟩⟩
  · rw [pollN_queue]
    exact List.drop_eq_nil_of_le (by omega)
  · rw [pollN_queue]
    intro hcon
    have hlen := congrArg List.length hcon
    simp [h3] at hlen

/-- A queue of 3 valid shader-change events. -/
def st_three : MaterialAutoUpdate :=
  { base_state with
    queue := [DebouncedEvent.write path_vert, DebouncedEvent.write path_frag,
      DebouncedEvent.write path_vert] }

/-- Witness for C6: draining a concrete queue of 3 events takes
exactly 3 polls. -/
theorem c6_witness :
    st_three.queue.length = 3 ∧
    (pollN env_all_ok 3 st_three).queue = [] ∧
    (pollN env_all_ok 2 st_three).queue ≠ [] :=
  have h := c6_one_event_one_compile_per_poll env_all_ok st_three 3
  ⟨rfl, (h.2.2.2 rfl).1, (h.2.2.2 rfl).2⟩

/-- Claim C7: a drained Created/Written event whose path's extension
is neither vert nor frag (or is missing) makes poll return Ok(None)
with no file read, no compile, and the vert/frag/material fields
unchanged; vert maps to the Vertex stage and frag to Fragment. -/
theorem c7_unrecognized_extension_ignored :
    (∀ (env : Env) (st : MaterialAutoUpdate) (path : Path) (rest : List DebouncedEvent),
      (st.queue = DebouncedEvent.write path :: rest ∨
        st.queue = DebouncedEvent.create path :: rest) →
      kind_of_ext (path.extension.bind fun v => v.to_str) = none →
      update env st = ⟨Outcome.ok none, { st with queue := rest }, []⟩) ∧
    kind_of_ext (some "vert") = some ShaderKind.Vertex ∧
    kind_of_ext (some "frag") = some ShaderKind.Fragment ∧
    kind_of_ext none = none := by
  refine ⟨?_, rfl, rfl, rfl⟩
  intro env st path rest hq hk
  rcases hq with hq | hq <;>
    (simp only [update, hq]; unfold update_shader; rw [hk]; split <;> rfl)

/-- Witness for C7: a concrete txt path is ignored. -/
theorem c7_witness :
    update env_all_ok (st_one (DebouncedEvent.write path_txt)) =
      ⟨Outcome.ok none, { (st_one (DebouncedEvent.write path_txt)) with queue := [] }, []⟩ :=
  c7_unrecognized_extension_ignored.1 env_all_ok (st_one (DebouncedEvent.write path_txt))
    path_txt [] (Or.inl rfl) rfl

/-- Claim C8: with a configured prefix, a drained event whose path's
file stem does not start with it makes poll return Ok(None) with no
external call and no state change beyond consuming the event; with no
configured prefix the prefix stage passes every path. -/
theorem c8_prefix_filter_blocks_or_passes_all :
    (∀ (env : Env) (st : MaterialAutoUpdate) (path : Path) (rest : List DebouncedEvent)
      (p : String),
      (st.queue = DebouncedEvent.write path :: rest ∨
        st.queue = DebouncedEvent.create path :: rest) →
      st.prefixFilter = some p →
      stem_starts_with path p = false →
      update env st = ⟨Outcome.ok none, { st with queue := rest }, []⟩) ∧
    (∀ path, passes_prefix_filter none path = true) := by
  constructor
  · intro env st path rest p hq hpf hs
    have hp : passes_prefix_filter st.prefixFilter path = false := by
      rw [hpf]; exact hs
    rcases hq with hq | hq <;>
      (simp only [update, hq]; unfold update_shader; simp [hp])
  · intro path; rfl

/-- A state with a configured prefix and one queued event whose stem
does not match. -/
def st_prefixed : MaterialAutoUpdate :=
  { base_state with
    prefixFilter := some "shader",
    queue := [DebouncedEvent.write path_other_stem] }

/-- Witness for C8: a concrete non-matching stem is filtered out. -/
theorem c8_witness :
    update env_all_ok st_prefixed =
      ⟨Outcome.ok none, { st_prefixed with queue := [] }, []⟩ :=
  c8_prefix_filter_blocks_or_passes_all.1 env_all_ok st_prefixed path_other_stem []
    "shader" (Or.inl rfl) rfl (by decide)

/-- Claim C9: with no pending event poll returns Ok(None) and changes
nothing; a drained event of any kind other than Created/Written is
discarded: poll returns Ok(None), consumes only that event and makes
no external call. -/
theorem c9_empty_or_unmatched_event_noop :
    (∀ (env : Env) (st : MaterialAutoUpdate), st.queue = [] →
      update env st = ⟨Outcome.ok none, st, []⟩) ∧
    (∀ (env : Env) (st : MaterialAutoUpdate) (e : DebouncedEvent)
      (rest : List DebouncedEvent),
      st.queue = e :: rest → is_create_or_write e = false →
      update env st = ⟨Outcome.ok none, { st with queue := rest }, []⟩) := by
  constructor
  · intro env st hq
    simp [update, hq]
  · intro env st e rest hq he
    cases e <;> simp_all [update, is_create_or_write]

/-- Witness for C9: a concrete Chmod event is discarded. -/
theorem c9_witness :
    update env_all_ok (st_one (DebouncedEvent.chmod path_vert)) =
      ⟨Outcome.ok none, { (st_one (DebouncedEvent.chmod path_vert)) with queue := [] }, []⟩ :=
  c9_empty_or_unmatched_event_noop.2 env_all_ok (st_one (DebouncedEvent.chmod path_vert))
    (DebouncedEvent.chmod path_vert) [] rfl rfl

end Shaderpark
